import Mathlib

/-!
Verification of the TheCareBot invoice-generation pipeline and autofill scorer.

The Python sources under `src/services/langgraph-python/` are shallowly
embedded below:

* `agents/autofill_predictor.py` — context matching, confidence scoring and
  the two prediction entry points;
* `graphs/invoice_workflow.py` — the six pipeline nodes, the compiled
  LangGraph graph, and the `execute_invoice_generation` entry point;
* `tools/supabase_client.py` — the folio allocator `get_next_folio`.

Modelling conventions: Python `float` amounts are embedded as exact
rationals `ℚ`; Python `round(x, 2)` is embedded as `round2` below
(rounding half away from midpoints never occurs in the claims checked
here, so the half-up `round` of Mathlib is an adequate model of Python's
float rounding); Python dict fields that the code reads with `.get`
defaults or that may be absent are embedded as `Option` fields; external
effects (database, random numbers, the ReportLab PDF library, clocks and
UUIDs) are threaded through explicit environment records.
-/

namespace TheCareBot

/-- Python `round(x, 2)`: round to two decimal places. -/
def round2 (q : ℚ) : ℚ := (round (q * 100) : ℚ) / 100

/-! ## Autofill predictor (`agents/autofill_predictor.py`)

The context dictionaries carry the three keys the code compares
(`day_of_week`, `tipo_consulta`, `period_of_day`); each is `Option`al
to model an absent key.  An entirely absent/empty dict is the record
with all three fields `none`.  (A Python dict that is non-empty but has
none of the three comparable keys takes the `total == 0` branch of the
source, which returns the same `0.5` as the empty-dict branch, so this
model loses no behaviour.) -/

structure AutofillContext where
  day_of_week : Option String
  tipo_consulta : Option String
  period_of_day : Option String
deriving DecidableEq, Repr

/-- The empty context dictionary. -/
def AutofillContext.empty : AutofillContext := ⟨none, none, none⟩

/-- Contribution of one key to `(total, matches)`: the key is comparable
when present in both contexts, and matches when additionally equal. -/
def keyCount (a b : Option String) : ℕ × ℕ :=
  match a, b with
  | some x, some y => (1, if x = y then 1 else 0)
  | _, _ => (0, 0)

/-- Embeds `calculate_context_match_score` (autofill_predictor.py, lines
26-64): neutral `0.5` for an empty context dict or when no comparable
keys exist, otherwise the fraction of comparable keys that match. -/
def calculate_context_match_score (pc cc : AutofillContext) : ℚ :=
  if pc = AutofillContext.empty ∨ cc = AutofillContext.empty then 1/2
  else
    let k1 := keyCount pc.day_of_week cc.day_of_week
    let k2 := keyCount pc.tipo_consulta cc.tipo_consulta
    let k3 := keyCount pc.period_of_day cc.period_of_day
    let total := k1.1 + k2.1 + k3.1
    let nMatches := k1.2 + k2.2 + k3.2
    if total = 0 then 1/2 else (nMatches : ℚ) / (total : ℚ)

/-! ### String similarity

`calculate_string_similarity` calls Python's
`difflib.SequenceMatcher(None, a.lower(), b.lower()).ratio()`.  `difflib`
is standard-library code external to this repository; it is modelled
here by the documented Ratcliff–Obershelp computation it implements for
short strings (no junk, no autojunk below 200 characters): total size of
the recursively-found longest matching blocks, normalised by the summed
lengths. -/

/-- Length of the longest common prefix of two character lists. -/
def commonPrefixLen : List Char → List Char → ℕ
  | a :: as, b :: bs => if a = b then commonPrefixLen as bs + 1 else 0
  | _, _ => 0

/-- Longest match starting at positions `(i, j)` of `a` and `b`. -/
def matchLenAt (a b : List Char) (ij : ℕ × ℕ) : ℕ :=
  commonPrefixLen (a.drop ij.1) (b.drop ij.2)

/-- One step of the longest-matching-block search: replace the current
best `(i, j, size)` only on strict improvement, which together with the
lexicographic scan order yields the maximal size with minimal `i` then
minimal `j`, as `difflib.find_longest_match` specifies. -/
def bestMatchStep (a b : List Char) (acc : ℕ × ℕ × ℕ) (ij : ℕ × ℕ) : ℕ × ℕ × ℕ :=
  let l := matchLenAt a b ij
  if acc.2.2 < l then (ij.1, ij.2, l) else acc

/-- All start-position pairs, scanned in lexicographic order. -/
def indexPairs (a b : List Char) : List (ℕ × ℕ) :=
  (List.range a.length).product (List.range b.length)

/-- Longest matching block `(i, j, size)` of two character lists. -/
def bestMatch (a b : List Char) : ℕ × ℕ × ℕ :=
  (indexPairs a b).foldl (bestMatchStep a b) (0, 0, 0)

lemma commonPrefixLen_le_left : ∀ a b : List Char, commonPrefixLen a b ≤ a.length := by
  intro a
  induction a with
  | nil => intro b; cases b <;> simp [commonPrefixLen]
  | cons x xs ih =>
      intro b
      cases b with
      | nil => simp [commonPrefixLen]
      | cons y ys =>
          simp only [commonPrefixLen, List.length_cons]
          split
          · exact Nat.succ_le_succ (ih ys)
          · exact Nat.zero_le _

lemma commonPrefixLen_le_right : ∀ a b : List Char, commonPrefixLen a b ≤ b.length := by
  intro a
  induction a with
  | nil => intro b; cases b <;> simp [commonPrefixLen]
  | cons x xs ih =>
      intro b
      cases b with
      | nil => simp [commonPrefixLen]
      | cons y ys =>
          simp only [commonPrefixLen, List.length_cons]
          split
          · exact Nat.succ_le_succ (ih ys)
          · exact Nat.zero_le _

lemma commonPrefixLen_self : ∀ a : List Char, commonPrefixLen a a = a.length := by
  intro a
  induction a with
  | nil => simp [commonPrefixLen]
  | cons x xs ih => simp [commonPrefixLen, ih]

/-- Every intermediate best triple stays inside the two strings. -/
lemma bestMatch_bounds (a b : List Char) :
    (bestMatch a b).1 + (bestMatch a b).2.2 ≤ a.length ∧
    (bestMatch a b).2.1 + (bestMatch a b).2.2 ≤ b.length := by
  have h : ∀ r : ℕ × ℕ × ℕ,
      (r.1 + r.2.2 ≤ a.length ∧ r.2.1 + r.2.2 ≤ b.length) →
      ∀ ij ∈ indexPairs a b,
        ((bestMatchStep a b r ij).1 + (bestMatchStep a b r ij).2.2 ≤ a.length ∧
         (bestMatchStep a b r ij).2.1 + (bestMatchStep a b r ij).2.2 ≤ b.length) := by
    intro r hr ij hij
    have hmem : ij.1 < a.length ∧ ij.2 < b.length := by
      have := hij
      unfold indexPairs at this
      rcases ij with ⟨i, j⟩
      rw [List.pair_mem_product] at this
      simpa using this
    unfold bestMatchStep
    dsimp only []
    split
    · constructor
      · have h1 : matchLenAt a b ij ≤ (a.drop ij.1).length := commonPrefixLen_le_left _ _
        have h2 : (a.drop ij.1).length = a.length - ij.1 := List.length_drop _ _
        simp only []
        omega
      · have h1 : matchLenAt a b ij ≤ (b.drop ij.2).length := commonPrefixLen_le_right _ _
        have h2 : (b.drop ij.2).length = b.length - ij.2 := List.length_drop _ _
        simp only []
        omega
    · exact hr
  unfold bestMatch
  exact List.foldlRecOn (indexPairs a b) (bestMatchStep a b) (0, 0, 0)
    (by simp) (fun r hr ij hij => h r hr ij hij)

/-- Total size of the matching blocks: recursive Ratcliff–Obershelp. -/
def matchedSize (a b : List Char) : ℕ :=
  if h : (bestMatch a b).2.2 = 0 then 0
  else
    matchedSize (a.take (bestMatch a b).1) (b.take (bestMatch a b).2.1) +
      (bestMatch a b).2.2 +
      matchedSize (a.drop ((bestMatch a b).1 + (bestMatch a b).2.2))
        (b.drop ((bestMatch a b).2.1 + (bestMatch a b).2.2))
termination_by a.length + b.length
decreasing_by
  · have hb := bestMatch_bounds a b
    rw [List.length_take, List.length_take]
    rw [Nat.min_eq_left (by omega), Nat.min_eq_left (by omega)]
    omega
  · have hb := bestMatch_bounds a b
    rw [List.length_drop, List.length_drop]
    omega

/-- difflib's `ratio`: `2 * M / T`, and `1.0` when both strings are
empty. -/
def matchScore (a b : List Char) : ℚ :=
  if a.length + b.length = 0 then 1
  else 2 * (matchedSize a b : ℚ) / ((a.length : ℚ) + (b.length : ℚ))

/-- Embeds `calculate_string_similarity` (autofill_predictor.py, lines
21-23): both strings are lower-cased before comparison. -/
def calculate_string_similarity (a b : String) : ℚ :=
  matchScore a.toLower.toList b.toLower.toList

/-! ### Patterns and confidence -/

/-- Embeds one row of the `autofill_patterns` table as the scoring code
reads it (`valor`, `frecuencia`, `contexto`, `last_used_at`; the
`.get` defaults of the source collapse into total fields). -/
structure AutofillPattern where
  valor : String
  frecuencia : ℕ
  contexto : AutofillContext
  last_used_at : String
deriving DecidableEq, Repr

/-- Embeds `max(p.get("frecuencia", 1) for p in patterns)`; both callers
guard the empty list, so the fold base `0` is never the result there. -/
def maxFrequency (ps : List AutofillPattern) : ℕ :=
  ps.foldl (fun m p => max m p.frecuencia) 0

/-- Python `s.strip() == ""`: true exactly when every character is
whitespace. -/
def pyStripIsEmpty (s : String) : Bool := s.toList.all (fun c => c.isWhitespace)

/-- The weighted sum before the final rounding, exactly as computed by
`calculate_confidence_score` (autofill_predictor.py, lines 90-110). -/
def rawConfidence (p : AutofillPattern) (current_input : String)
    (current_context : AutofillContext) (max_frequency : ℕ) : ℚ :=
  let frequency_score : ℚ := min ((p.frecuencia : ℚ) / (max max_frequency 1 : ℕ)) 1
  let context_score := calculate_context_match_score p.contexto current_context
  let similarity_score : ℚ :=
    if pyStripIsEmpty current_input then 1
    else calculate_string_similarity current_input p.valor
  0.4 * frequency_score + 0.3 * context_score + 0.3 * similarity_score

/-- Embeds `calculate_confidence_score` (autofill_predictor.py, lines
67-112): the weighted sum rounded to two decimals. -/
def calculate_confidence_score (p : AutofillPattern) (current_input : String)
    (current_context : AutofillContext) (max_frequency : ℕ) : ℚ :=
  round2 (rawConfidence p current_input current_context max_frequency)

/-! ### The similarity of a string with itself is 1 -/

lemma foldl_bestMatchStep_size_mono (a b : List Char) :
    ∀ (l : List (ℕ × ℕ)) (acc : ℕ × ℕ × ℕ),
      acc.2.2 ≤ (l.foldl (bestMatchStep a b) acc).2.2 := by
  intro l
  induction l with
  | nil => intro acc; simp
  | cons x xs ih =>
      intro acc
      refine le_trans ?_ (ih (bestMatchStep a b acc x))
      unfold bestMatchStep
      dsimp only []
      split
      · rename_i hlt
        exact le_of_lt hlt
      · exact le_refl _

lemma foldl_bestMatchStep_ge_score (a b : List Char) :
    ∀ (l : List (ℕ × ℕ)) (acc : ℕ × ℕ × ℕ) (ij : ℕ × ℕ), ij ∈ l →
      matchLenAt a b ij ≤ (l.foldl (bestMatchStep a b) acc).2.2 := by
  intro l
  induction l with
  | nil => intro acc ij h; simp at h
  | cons x xs ih =>
      intro acc ij h
      rcases List.mem_cons.mp h with h | h
      · subst h
        refine le_trans ?_ (foldl_bestMatchStep_size_mono a b xs (bestMatchStep a b acc ij))
        unfold bestMatchStep
        dsimp only []
        split
        · exact le_refl _
        · rename_i hnlt
          omega
      · exact ih (bestMatchStep a b acc x) ij h

/-- The fold result is the initial accumulator or a triple whose size is
realised at its own start positions. -/
lemma foldl_bestMatchStep_achieved (a b : List Char) :
    ∀ (l : List (ℕ × ℕ)) (acc : ℕ × ℕ × ℕ),
      (acc = (0, 0, 0) →
        (l.foldl (bestMatchStep a b) acc) = (0, 0, 0) ∨
        matchLenAt a b ((l.foldl (bestMatchStep a b) acc).1,
          (l.foldl (bestMatchStep a b) acc).2.1) =
          (l.foldl (bestMatchStep a b) acc).2.2) := by
  intro l
  have key : ∀ (l : List (ℕ × ℕ)) (acc : ℕ × ℕ × ℕ),
      (acc = (0, 0, 0) ∨ matchLenAt a b (acc.1, acc.2.1) = acc.2.2) →
      ((l.foldl (bestMatchStep a b) acc) = (0, 0, 0) ∨
        matchLenAt a b ((l.foldl (bestMatchStep a b) acc).1,
          (l.foldl (bestMatchStep a b) acc).2.1) =
          (l.foldl (bestMatchStep a b) acc).2.2) := by
    intro l
    induction l with
    | nil => intro acc h; simpa using h
    | cons x xs ih =>
        intro acc h
        apply ih
        unfold bestMatchStep
        dsimp only []
        split
        · right
          rcases x with ⟨i, j⟩
          rfl
        · exact h
  intro acc h
  exact key l acc (Or.inl h)

lemma matchLenAt_le_left (a b : List Char) (ij : ℕ × ℕ) :
    matchLenAt a b ij ≤ a.length - ij.1 := by
  have h := commonPrefixLen_le_left (a.drop ij.1) (b.drop ij.2)
  simpa [matchLenAt, List.length_drop] using h

lemma matchLenAt_le_right (a b : List Char) (ij : ℕ × ℕ) :
    matchLenAt a b ij ≤ b.length - ij.2 := by
  have h := commonPrefixLen_le_right (a.drop ij.1) (b.drop ij.2)
  simpa [matchLenAt, List.length_drop] using h

/-- On identical inputs the longest matching block is the whole string. -/
lemma bestMatch_self (a : List Char) (ha : a ≠ []) :
    bestMatch a a = (0, 0, a.length) := by
  have hn : 0 < a.length := List.length_pos.mpr ha
  have hmem : ((0 : ℕ), (0 : ℕ)) ∈ indexPairs a a := by
    unfold indexPairs
    rw [List.pair_mem_product]
    constructor <;> simpa using hn
  have hscore : matchLenAt a a (0, 0) = a.length := by
    simp [matchLenAt, commonPrefixLen_self]
  have hge : a.length ≤ (bestMatch a a).2.2 := by
    have := foldl_bestMatchStep_ge_score a a (indexPairs a a) (0, 0, 0) (0, 0) hmem
    rw [hscore] at this
    exact this
  have hach := foldl_bestMatchStep_achieved a a (indexPairs a a) (0, 0, 0) rfl
  rcases hach with hzero | hach
  · exfalso
    have : (bestMatch a a).2.2 = 0 := by
      unfold bestMatch; rw [hzero]
    omega
  · have hle1 := matchLenAt_le_left a a ((bestMatch a a).1, (bestMatch a a).2.1)
    have hle2 := matchLenAt_le_right a a ((bestMatch a a).1, (bestMatch a a).2.1)
    have hb : (bestMatch a a).2.2 = matchLenAt a a ((bestMatch a a).1, (bestMatch a a).2.1) := by
      unfold bestMatch
      exact hach.symm
    have hi : (bestMatch a a).1 = 0 := by omega
    have hj : (bestMatch a a).2.1 = 0 := by omega
    have hk : (bestMatch a a).2.2 = a.length := by omega
    calc bestMatch a a
        = ((bestMatch a a).1, (bestMatch a a).2.1, (bestMatch a a).2.2) := rfl
      _ = (0, 0, a.length) := by rw [hi, hj, hk]

lemma matchedSize_nil : matchedSize [] [] = 0 := by
  rw [matchedSize]
  rfl

/-- A string fully matches itself. -/
lemma matchedSize_self (a : List Char) : matchedSize a a = a.length := by
  by_cases ha : a = []
  · subst ha; simpa using matchedSize_nil
  · have hb := bestMatch_self a ha
    have hn : 0 < a.length := List.length_pos.mpr ha
    rw [matchedSize, hb]
    rw [dif_neg (by simpa using hn.ne')]
    simp [matchedSize_nil, List.drop_length]

lemma matchScore_self (a : List Char) : matchScore a a = 1 := by
  by_cases ha : a = []
  · subst ha; simp [matchScore]
  · have hn : 0 < a.length := List.length_pos.mpr ha
    unfold matchScore
    rw [if_neg (by omega)]
    rw [matchedSize_self]
    have : ((a.length : ℚ) + (a.length : ℚ)) ≠ 0 := by
      have : (0 : ℚ) < (a.length : ℚ) := by exact_mod_cast hn
      nlinarith
    field_simp
    ring

/-- `calculate_string_similarity` on two equal strings is `1`. -/
lemma calculate_string_similarity_self (s : String) :
    calculate_string_similarity s s = 1 := by
  unfold calculate_string_similarity
  exact matchScore_self _

/-! ### Prediction entry points -/

/-- One entry of the list returned by `predict_autofill_simple`
(autofill_predictor.py, lines 249-259). -/
structure Prediction where
  valor : String
  confidence : ℚ
  frecuencia : ℕ
  contexto_match : Bool
  icon : String
  last_used : String
deriving DecidableEq, Repr

/-- One entry of the list returned by `query_and_score_patterns`
(autofill_predictor.py, lines 150-159); it carries no `icon`. -/
structure ScoredPrediction where
  valor : String
  confidence : ℚ
  frecuencia : ℕ
  contexto_match : Bool
  last_used : String
deriving DecidableEq, Repr

/-- The dict appended by `predict_autofill_simple` for one accepted
pattern, including the `🤖` / `🤖📊` icon choice at the `0.8` bound. -/
def mkPrediction (p : AutofillPattern) (v : String) (ctx : AutofillContext)
    (maxF : ℕ) : Prediction :=
  let confidence := calculate_confidence_score p v ctx maxF
  { valor := p.valor
    confidence := confidence
    frecuencia := p.frecuencia
    contexto_match := decide ((0.7 : ℚ) < calculate_context_match_score p.contexto ctx)
    icon := if (0.8 : ℚ) ≤ confidence then "🤖📊" else "🤖"
    last_used := p.last_used_at }

/-- The dict appended by `query_and_score_patterns` for one accepted
pattern. -/
def mkScoredPrediction (p : AutofillPattern) (v : String) (ctx : AutofillContext)
    (maxF : ℕ) : ScoredPrediction :=
  { valor := p.valor
    confidence := calculate_confidence_score p v ctx maxF
    frecuencia := p.frecuencia
    contexto_match := decide ((0.7 : ℚ) < calculate_context_match_score p.contexto ctx)
    last_used := p.last_used_at }

/-- The scoring loop of `predict_autofill_simple`: keep a pattern only
when its (rounded) confidence is at least `0.6`. -/
def scoreAllSimple (patterns : List AutofillPattern) (v : String)
    (ctx : AutofillContext) : List Prediction :=
  let maxF := maxFrequency patterns
  patterns.filterMap (fun p =>
    if (0.6 : ℚ) ≤ calculate_confidence_score p v ctx maxF then
      some (mkPrediction p v ctx maxF)
    else none)

/-- The scoring loop of `query_and_score_patterns`. -/
def scoreAllTool (patterns : List AutofillPattern) (v : String)
    (ctx : AutofillContext) : List ScoredPrediction :=
  let maxF := maxFrequency patterns
  patterns.filterMap (fun p =>
    if (0.6 : ℚ) ≤ calculate_confidence_score p v ctx maxF then
      some (mkScoredPrediction p v ctx maxF)
    else none)

/-- Descending-by-confidence comparison used to model Python's stable
`list.sort(key=confidence, reverse=True)`. -/
def predDesc (x y : Prediction) : Bool := decide (y.confidence ≤ x.confidence)

/-- Descending-by-confidence comparison for the tool variant. -/
def scoredDesc (x y : ScoredPrediction) : Bool := decide (y.confidence ≤ x.confidence)

/-- Embeds `predict_autofill_simple` (autofill_predictor.py, lines
211-264): empty guard, score with the 0.6 threshold, sort descending by
confidence, return the first five. -/
def predict_autofill_simple (patterns : List AutofillPattern) (current_value : String)
    (contexto : AutofillContext) : List Prediction :=
  if patterns = [] then []
  else ((scoreAllSimple patterns current_value contexto).mergeSort predDesc).take 5

/-- Embeds `query_and_score_patterns` (autofill_predictor.py, lines
115-165): same pipeline, without the icon field. -/
def query_and_score_patterns (patterns : List AutofillPattern) (current_input : String)
    (current_context : AutofillContext) : List ScoredPrediction :=
  if patterns = [] then []
  else ((scoreAllTool patterns current_input current_context).mergeSort scoredDesc).take 5

/-! ### Frequency bounds -/

lemma foldl_max_freq_init_le (ps : List AutofillPattern) :
    ∀ n : ℕ, n ≤ ps.foldl (fun m p => max m p.frecuencia) n := by
  induction ps with
  | nil => intro n; simp
  | cons q qs ih =>
      intro n
      refine le_trans ?_ (ih (max n q.frecuencia))
      exact le_max_left _ _

lemma mem_le_foldl_max_freq (ps : List AutofillPattern) :
    ∀ (n : ℕ) (p : AutofillPattern), p ∈ ps →
      p.frecuencia ≤ ps.foldl (fun m q => max m q.frecuencia) n := by
  induction ps with
  | nil => intro n p hp; simp at hp
  | cons q qs ih =>
      intro n p hp
      rcases List.mem_cons.mp hp with h | h
      · subst h
        simp only [List.foldl_cons]
        refine le_trans (le_max_right n p.frecuencia) ?_
        exact foldl_max_freq_init_le qs _
      · simpa using ih (max n q.frecuencia) p h

lemma frecuencia_le_maxFrequency (ps : List AutofillPattern) (p : AutofillPattern)
    (hp : p ∈ ps) : p.frecuencia ≤ maxFrequency ps :=
  mem_le_foldl_max_freq ps 0 p hp

/-! ## Invoice workflow (`graphs/invoice_workflow.py`)

The `InvoiceWorkflowState` TypedDict is embedded as a structure; its
`status` Literal becomes a closed inductive.  A line-item dict is
embedded with `Option` fields, since the validator reads them with
`.get(..., 0)` defaults while `generate_xml_dte` indexes
`detalle["descripcion"]` directly (a missing key there raises `KeyError`
inside the step's `try`, which the step converts into a `failed`
status). -/

/-- The status Literal of `InvoiceWorkflowState` (workflow_state.py). -/
inductive Status
  | pending
  | validating
  | generating_xml
  | signing
  | generating_pdf
  | sending
  | completed
  | failed
deriving DecidableEq, Repr

/-- One line-item dict of `detalles`. -/
structure Detalle where
  descripcion : Option String
  cantidad : Option ℚ
  precio : Option ℚ
  total : Option ℚ
deriving DecidableEq, Repr

/-- Embeds `InvoiceWorkflowState` (state/workflow_state.py, lines 22-48). -/
structure InvoiceWorkflowState where
  doctor_id : String
  tipo_dte : ℤ
  receptor_rut : String
  receptor_razon_social : String
  receptor_direccion : Option String
  detalles : List Detalle
  folio : Option ℤ
  xml_dte : Option String
  xml_signed : Option String
  pdf_bytes : Option (List ℕ)
  pdf_url : Option String
  track_id : Option String
  monto_neto : Option ℚ
  monto_iva : Option ℚ
  monto_total : Option ℚ
  status : Status
  errors : List String
  confidence_score : Option ℚ
deriving DecidableEq, Repr

/-- External effects one run of the workflow can observe: the Supabase
folio call (`none` models both a raised exception and a `None` return),
the `random.randint(100000, 999999)` draw, the ReportLab PDF rendering
(`none` models a raised exception inside `generate_invoice_pdf`), the
UUID-derived track token, the clock strings and the `EMPRESA_*`
environment variables. -/
structure Env where
  dbFolio : Option ℤ
  randFolio : ℤ
  pdfOutcome : Option (List ℕ)
  trackToken : String
  today : String
  nowStamp : String
  empresaRut : String
  empresaRazonSocial : String
  empresaGiro : String
  empresaDireccion : String
  empresaActividad : String
deriving DecidableEq, Repr

/-- Python `str` of an optional integer field: `None` prints as
`"None"` inside an f-string rather than raising. -/
def pyShowOptInt : Option ℤ → String
  | some n => toString n
  | none => "None"

/-- Python `int(...)` truncation toward zero on an exact rational. -/
def pyInt (q : ℚ) : ℤ := if 0 ≤ q then ⌊q⌋ else -⌊-q⌋

/-- Embeds node 1, `assign_folio` (invoice_workflow.py, lines 25-65):
use the database folio when the call yields one, otherwise fall back to
the random demo folio; either way the node proceeds to `validating`.
(The node's own `except` branch is unreachable: the database call is
wrapped in an inner `try` and nothing after it can raise.) -/
def assign_folio (env : Env) (state : InvoiceWorkflowState) : InvoiceWorkflowState :=
  let folio : ℤ :=
    match env.dbFolio with
    | some f => f
    | none => env.randFolio
  { state with folio := some folio, status := Status.validating }

/-- The error strings collected for one line item `i` (0-based index,
1-based message), from the loop at invoice_workflow.py, lines 87-91. -/
def detalleErrors (i : ℕ) (d : Detalle) : List String :=
  (if d.cantidad.getD 0 ≤ 0 then ["Invalid quantity in line " ++ toString (i + 1)] else [])
    ++ (if d.precio.getD 0 ≤ 0 then ["Invalid price in line " ++ toString (i + 1)] else [])

/-- The `for i, detalle in enumerate(detalles)` loop of the validator. -/
def lineItemErrorsFrom (i : ℕ) : List Detalle → List String
  | [] => []
  | d :: rest => detalleErrors i d ++ lineItemErrorsFrom (i + 1) rest

/-- All validation errors, in the order the validator appends them:
RUT check, empty-line-items check, then the per-line checks. -/
def validateErrors (state : InvoiceWorkflowState) : List String :=
  (if state.receptor_rut = "" ∨ state.receptor_rut.length < 9
    then ["Invalid receptor RUT format"] else [])
    ++ (if state.detalles = [] then ["At least one line item is required"] else [])
    ++ lineItemErrorsFrom 0 state.detalles

/-- Embeds node 2, `validate_invoice_data` (invoice_workflow.py, lines
68-113): collect every violation, fail when any exists, otherwise
compute `net = Σ line.total`, `vat = round(net * 0.19, 2)`,
`total = round(net + vat, 2)` and move to `generating_xml`. -/
def validate_invoice_data (state : InvoiceWorkflowState) : InvoiceWorkflowState :=
  let errors := validateErrors state
  if errors ≠ [] then
    { state with status := Status.failed, errors := state.errors ++ errors }
  else
    let total_neto := (state.detalles.map (fun d => d.total.getD 0)).sum
    let total_iva := round2 (total_neto * (0.19 : ℚ))
    let total := round2 (total_neto + total_iva)
    { state with
        monto_neto := some total_neto
        monto_iva := some total_iva
        monto_total := some total
        status := Status.generating_xml }

/-- A line-item dict has all four keys `generate_xml_dte` indexes. -/
def detalleComplete (d : Detalle) : Bool :=
  d.descripcion.isSome && d.cantidad.isSome && d.precio.isSome && d.total.isSome

/-- The `<Item>` block rendered for one line item (1-based index). -/
def xmlItem (i : ℕ) (d : Detalle) : String :=
  "\n      <Item>\n        <NroLinDet>" ++ toString (i + 1)
    ++ "</NroLinDet>\n        <NmbItem>" ++ (d.descripcion.getD "")
    ++ "</NmbItem>\n        <QtyItem>" ++ toString (d.cantidad.getD 0)
    ++ "</QtyItem>\n        <PrcItem>" ++ toString (pyInt (d.precio.getD 0))
    ++ "</PrcItem>\n        <MontoItem>" ++ toString (pyInt (d.total.getD 0))
    ++ "</MontoItem>\n      </Item>"

/-- The `<Item>` blocks of `for i, detalle in enumerate(..., 1)`. -/
def xmlItemsFrom (i : ℕ) : List Detalle → String
  | [] => ""
  | d :: rest => xmlItem i d ++ xmlItemsFrom (i + 1) rest

/-- The DTE document text built by `generate_xml_dte` (invoice_workflow.py,
lines 139-182). -/
def buildXml (env : Env) (state : InvoiceWorkflowState)
    (neto iva total : ℚ) : String :=
  "<?xml version=\"1.0\" encoding=\"ISO-8859-1\"?>\n<DTE version=\"1.0\">\n  <Documento ID=\"DTE-"
    ++ toString state.tipo_dte ++ "-" ++ pyShowOptInt state.folio
    ++ "\">\n    <Encabezado>\n      <IdDoc>\n        <TipoDTE>" ++ toString state.tipo_dte
    ++ "</TipoDTE>\n        <Folio>" ++ pyShowOptInt state.folio
    ++ "</Folio>\n        <FchEmis>" ++ env.today
    ++ "</FchEmis>\n      </IdDoc>\n      <Emisor>\n        <RUTEmisor>" ++ env.empresaRut
    ++ "</RUTEmisor>\n        <RznSoc>" ++ env.empresaRazonSocial
    ++ "</RznSoc>\n        <GiroEmis>" ++ env.empresaGiro
    ++ "</GiroEmis>\n        <DirOrigen>" ++ env.empresaDireccion
    ++ "</DirOrigen>\n        <Acteco>" ++ env.empresaActividad
    ++ "</Acteco>\n      </Emisor>\n      <Receptor>\n        <RUTRecep>" ++ state.receptor_rut
    ++ "</RUTRecep>\n        <RznSocRecep>" ++ state.receptor_razon_social
    ++ "</RznSocRecep>\n        <DirRecep>" ++ (state.receptor_direccion.getD "N/A")
    ++ "</DirRecep>\n      </Receptor>\n      <Totales>\n        <MntNeto>"
    ++ toString (pyInt neto)
    ++ "</MntNeto>\n        <TasaIVA>19</TasaIVA>\n        <IVA>" ++ toString (pyInt iva)
    ++ "</IVA>\n        <MntTotal>" ++ toString (pyInt total)
    ++ "</MntTotal>\n      </Totales>\n    </Encabezado>\n    <Detalle>"
    ++ xmlItemsFrom 0 state.detalles
    ++ "\n    </Detalle>\n  </Documento>\n</DTE>"

/-- Embeds node 3, `generate_xml_dte` (invoice_workflow.py, lines
116-196).  The step raises — and therefore fails — exactly when
`int(...)` is applied to a `None` total or a line item lacks one of the
four keys it indexes; the raised exception is converted into an
appended error string and a `failed` status. -/
def generate_xml_dte (env : Env) (state : InvoiceWorkflowState) : InvoiceWorkflowState :=
  match state.monto_neto, state.monto_iva, state.monto_total with
  | some neto, some iva, some total =>
      if state.detalles.all detalleComplete then
        { state with
            xml_dte := some (buildXml env state neto iva total)
            status := Status.signing }
      else
        { state with
            status := Status.failed
            errors := state.errors ++ ["Error generating XML: KeyError"] }
  | _, _, _ =>
      { state with
          status := Status.failed
          errors := state.errors ++ ["Error generating XML: TypeError"] }

/-- The mock signature block inserted in place of `</DTE>`. -/
def signatureBlock : String :=
  "\n  <Signature xmlns=\"http://www.w3.org/2000/09/xmldsig#\">\n    <SignedInfo>\n      <CanonicalizationMethod Algorithm=\"http://www.w3.org/TR/2001/REC-xml-c14n-20010315\"/>\n      <SignatureMethod Algorithm=\"http://www.w3.org/2000/09/xmldsig#rsa-sha1\"/>\n    </SignedInfo>\n    <SignatureValue>MOCK_SIGNATURE_FOR_MVP_DEMO</SignatureValue>\n  </Signature>\n</DTE>"

/-- Embeds node 4, `sign_xml_dte` (invoice_workflow.py, lines 199-234):
string-replace the closing tag with the mock signature block; when
`xml_dte` is `None` the attribute access raises and the step fails. -/
def sign_xml_dte (state : InvoiceWorkflowState) : InvoiceWorkflowState :=
  match state.xml_dte with
  | some xml =>
      { state with
          xml_signed := some (xml.replace "</DTE>" signatureBlock)
          status := Status.generating_pdf }
  | none =>
      { state with
          status := Status.failed
          errors := state.errors ++ ["Error signing XML: AttributeError"] }

/-- Embeds node 5, `generate_pdf_invoice` (invoice_workflow.py, lines
237-300): the ReportLab call either yields the PDF bytes (then the node
stores them together with the URL and the freshly generated track id and
moves to `sending`) or raises (then the node fails; the track id
computed before the call is not stored). -/
def generate_pdf_invoice (env : Env) (state : InvoiceWorkflowState) : InvoiceWorkflowState :=
  match env.pdfOutcome with
  | some bytes =>
      { state with
          pdf_bytes := some bytes
          pdf_url := some ("/api/invoices/" ++ pyShowOptInt state.folio ++ "/pdf")
          track_id := some ("TRACK-" ++ env.trackToken)
          status := Status.sending }
  | none =>
      { state with
          status := Status.failed
          errors := state.errors ++ ["Error generating PDF: exception in generate_invoice_pdf"] }

/-- Embeds node 6, `send_to_sii` (invoice_workflow.py, lines 303-360):
the database save and audit log sit inside an inner `try` whose failures
are swallowed, and nothing outside it can raise, so the node always
completes and unconditionally writes `status = "completed"`.  The
`state.get("track_id", f"TRACK-DEMO-...")` on line 346 defaults only on
a missing key; the key is seeded `None` by `execute_invoice_generation`
and re-written by every node's `{**state, ...}` return, so it is always
present and the demo back-fill is dead code: the stored value (possibly
`None`) passes through unchanged. -/
def send_to_sii (state : InvoiceWorkflowState) : InvoiceWorkflowState :=
  { state with
      track_id := state.track_id
      status := Status.completed
      confidence_score := some 1 }

/-- Embeds `should_continue` (invoice_workflow.py, lines 363-370):
`true` is the `"continue"` branch, `false` is `END`. -/
def should_continue (state : InvoiceWorkflowState) : Bool :=
  state.status ≠ Status.failed

/-- One node execution as the compiled graph applies it: the `errors`
channel is declared `Annotated[list[str], operator.add]`
(workflow_state.py, line 47), so the returned dict's `errors` value is
appended to the channel's current value rather than replacing it (each
node returns `{**state, ...}`, so any errors already in the state come
back and are concatenated again on its exit); every other channel takes
the returned value. -/
def applyNode (f : InvoiceWorkflowState → InvoiceWorkflowState)
    (s : InvoiceWorkflowState) : InvoiceWorkflowState :=
  let r := f s
  { r with errors := s.errors ++ r.errors }

/-- Embeds the compiled graph of `create_invoice_workflow`
(invoice_workflow.py, lines 373-413): conditional edges guard the exits
of `assign_folio` and `validate_data` only; the edges
`generate_xml → sign_xml → generate_pdf → send_to_sii → END` are
unconditional.  Each node runs through `applyNode`, which carries the
`operator.add` reducer of the `errors` channel. -/
def runInvoiceWorkflow (env : Env) (state : InvoiceWorkflowState) : InvoiceWorkflowState :=
  let s1 := applyNode (assign_folio env) state
  if should_continue s1 then
    let s2 := applyNode validate_invoice_data s1
    if should_continue s2 then
      applyNode send_to_sii (applyNode (generate_pdf_invoice env)
        (applyNode sign_xml_dte (applyNode (generate_xml_dte env) s2)))
    else s2
  else s1

/-- The structured value returned by `execute_invoice_generation`: the
failure dict carries only `success: False` and the error list, the
success dict carries folio, track id, PDF URL, total, SII state and the
PDF bytes (invoice_workflow.py, lines 475-489). -/
inductive InvoiceResult
  | ok (folio : Option ℤ) (track_id : Option String) (pdf_url : Option String)
      (monto_total : Option ℚ) (estado_sii : String) (pdf_bytes : Option (List ℕ))
  | fail (errors : List String)
deriving DecidableEq, Repr

/-- The initial state dict built by `execute_invoice_generation`
(invoice_workflow.py, lines 446-465). -/
def initialState (doctor_id : String) (tipo_dte : ℤ) (receptor_rut : String)
    (receptor_razon_social : String) (receptor_direccion : Option String)
    (detalles : List Detalle) : InvoiceWorkflowState :=
  { doctor_id := doctor_id
    tipo_dte := tipo_dte
    receptor_rut := receptor_rut
    receptor_razon_social := receptor_razon_social
    receptor_direccion := receptor_direccion
    detalles := detalles
    folio := none
    xml_dte := none
    xml_signed := none
    pdf_bytes := none
    pdf_url := none
    track_id := none
    monto_neto := none
    monto_iva := none
    monto_total := none
    status := Status.pending
    errors := []
    confidence_score := none }

/-- Embeds `execute_invoice_generation` (invoice_workflow.py, lines
416-494): run the graph on the initial state and wrap the result.  (The
outer `except` is unreachable in this model: no node lets an exception
escape, so `workflow.ainvoke` returns normally.) -/
def execute_invoice_generation (env : Env) (doctor_id : String) (tipo_dte : ℤ)
    (receptor_rut : String) (receptor_razon_social : String)
    (receptor_direccion : Option String) (detalles : List Detalle) : InvoiceResult :=
  let result := runInvoiceWorkflow env
    (initialState doctor_id tipo_dte receptor_rut receptor_razon_social
      receptor_direccion detalles)
  if result.status = Status.failed then
    InvoiceResult.fail result.errors
  else
    InvoiceResult.ok result.folio result.track_id result.pdf_url
      result.monto_total "aceptado" result.pdf_bytes

/-! ## Folio allocator (`tools/supabase_client.py`)

`get_next_folio` is modelled against the single range row that the
`folios_asignados` table holds for one `(tipo_dte, rut_empresa)` key
(FolioRange in the data model: exactly one active range per key).  The
method's internal `ValueError`s are caught by its own `except`, which
returns `None`; so the observable outcome is `Option ℤ` together with
the updated row. -/

/-- The `estado` column of a folio range row. -/
inductive RangeEstado
  | activo
  | agotado
deriving DecidableEq, Repr

/-- The folio range row for one `(tipo_dte, rut_empresa)` key. -/
structure FolioRange where
  folio_actual : ℤ
  folio_hasta : ℤ
  estado : RangeEstado
deriving DecidableEq, Repr

/-- Embeds `SupabaseClient.get_next_folio` (supabase_client.py, lines
113-160): a non-active row is invisible to the `estado = "activo"`
query (`No active folios` → `None`); when `next > folio_hasta` the row
is marked `agotado` and `None` is returned; otherwise the row advances
to `next` and `next` is returned. -/
def get_next_folio (r : FolioRange) : Option ℤ × FolioRange :=
  if r.estado ≠ RangeEstado.activo then (none, r)
  else
    let next := r.folio_actual + 1
    if r.folio_hasta < next then
      (none, { r with estado := RangeEstado.agotado })
    else
      (some next, { r with folio_actual := next })

/-- Repeated allocation against the same key: the list of outcomes and
the final row after `n` further calls. -/
def allocateMany : ℕ → FolioRange → List (Option ℤ) × FolioRange
  | 0, r => ([], r)
  | n + 1, r =>
      let step := get_next_folio r
      let rest := allocateMany n step.2
      (step.1 :: rest.1, rest.2)

/-! ## Supporting lemmas for the claims -/

lemma lineItemErrorsFrom_nil_of_valid (dl : List Detalle)
    (h : ∀ d ∈ dl, 0 < d.cantidad.getD 0 ∧ 0 < d.precio.getD 0) :
    ∀ i, lineItemErrorsFrom i dl = [] := by
  induction dl with
  | nil => intro i; rfl
  | cons d rest ih =>
      intro i
      have hd := h d (List.mem_cons_self d rest)
      have hrest : ∀ d ∈ rest, 0 < d.cantidad.getD 0 ∧ 0 < d.precio.getD 0 :=
        fun x hx => h x (List.mem_cons_of_mem d hx)
      unfold lineItemErrorsFrom detalleErrors
      rw [if_neg (by exact not_le.mpr hd.1), if_neg (by exact not_le.mpr hd.2)]
      simpa using ih hrest (i + 1)

lemma one_le_lineItemErrorsFrom_of_bad (dl : List Detalle)
    (h : ∃ d ∈ dl, d.cantidad.getD 0 ≤ 0) :
    ∀ i, 1 ≤ (lineItemErrorsFrom i dl).length := by
  induction dl with
  | nil => rcases h with ⟨d, hd, _⟩; simp at hd
  | cons d rest ih =>
      intro i
      rcases h with ⟨e, he, hbad⟩
      rcases List.mem_cons.mp he with rfl | he
      · unfold lineItemErrorsFrom detalleErrors
        rw [if_pos hbad]
        simp
      · have := ih ⟨e, he, hbad⟩ (i + 1)
        unfold lineItemErrorsFrom
        simp only [List.length_append]
        omega

lemma validateErrors_nil_of_valid (st : InvoiceWorkflowState)
    (hrut : 9 ≤ st.receptor_rut.length)
    (hne : st.detalles ≠ [])
    (hitems : ∀ d ∈ st.detalles, 0 < d.cantidad.getD 0 ∧ 0 < d.precio.getD 0) :
    validateErrors st = [] := by
  unfold validateErrors
  have hrut' : ¬(st.receptor_rut = "" ∨ st.receptor_rut.length < 9) := by
    rintro (h | h)
    · rw [h] at hrut; simp at hrut
    · omega
  rw [if_neg hrut', if_neg hne, lineItemErrorsFrom_nil_of_valid st.detalles hitems 0]
  rfl

lemma validate_invoice_data_of_no_errors (st : InvoiceWorkflowState)
    (h : validateErrors st = []) :
    validate_invoice_data st =
      { st with
          monto_neto := some ((st.detalles.map (fun d => d.total.getD 0)).sum)
          monto_iva := some (round2 ((st.detalles.map (fun d => d.total.getD 0)).sum * 0.19))
          monto_total := some (round2 ((st.detalles.map (fun d => d.total.getD 0)).sum
            + round2 ((st.detalles.map (fun d => d.total.getD 0)).sum * 0.19)))
          status := Status.generating_xml } := by
  unfold validate_invoice_data
  rw [h]
  simp

lemma get_next_folio_agotado (r : FolioRange) (h : r.estado = RangeEstado.agotado) :
    get_next_folio r = (none, r) := by
  unfold get_next_folio
  rw [if_pos (by rw [h]; decide)]

lemma allocateMany_agotado (n : ℕ) (r : FolioRange)
    (h : r.estado = RangeEstado.agotado) :
    allocateMany n r = (List.replicate n none, r) := by
  induction n with
  | zero => rfl
  | succ m ih =>
      unfold allocateMany
      rw [get_next_folio_agotado r h]
      simp [ih, List.replicate_succ]

/-! ## Claims -/

/-- C2: for every request that passes validation (receptor RUT of length
at least 9, at least one line item, every line item with positive
quantity and positive unit price), the validator stores
`net = Σ line.total`, `vat = round(net * 0.19, 2)` and
`total = round(net + vat, 2)` in the workflow state. -/
theorem C2_validator_totals (st : InvoiceWorkflowState)
    (hrut : 9 ≤ st.receptor_rut.length)
    (hne : st.detalles ≠ [])
    (hitems : ∀ d ∈ st.detalles, 0 < d.cantidad.getD 0 ∧ 0 < d.precio.getD 0) :
    (validate_invoice_data st).monto_neto
        = some ((st.detalles.map (fun d => d.total.getD 0)).sum) ∧
    (validate_invoice_data st).monto_iva
        = some (round2 ((st.detalles.map (fun d => d.total.getD 0)).sum * 0.19)) ∧
    (validate_invoice_data st).monto_total
        = some (round2 ((st.detalles.map (fun d => d.total.getD 0)).sum
            + round2 ((st.detalles.map (fun d => d.total.getD 0)).sum * 0.19))) := by
  have herrs := validateErrors_nil_of_valid st hrut hne hitems
  unfold validate_invoice_data
  rw [herrs]
  simp

/-- C2 witness: a concrete valid request (boleta, one 35000-peso line)
yields net 35000, VAT 6650 and total 41650. -/
theorem C2_validator_totals_witness :
    (9 ≤ ("20.210.808-K" : String).length) ∧
    ((validate_invoice_data (initialState "doc-1" 39 "20.210.808-K" "Paciente Demo"
        (some "Calle 1") [⟨some "Limpieza dental", some 1, some 35000, some 35000⟩])).monto_neto
      = some (((initialState "doc-1" 39 "20.210.808-K" "Paciente Demo"
        (some "Calle 1") [⟨some "Limpieza dental", some 1, some 35000, some 35000⟩]).detalles.map
          (fun d => d.total.getD 0)).sum) ∧
     (validate_invoice_data (initialState "doc-1" 39 "20.210.808-K" "Paciente Demo"
        (some "Calle 1") [⟨some "Limpieza dental", some 1, some 35000, some 35000⟩])).monto_iva
      = some (round2 (((initialState "doc-1" 39 "20.210.808-K" "Paciente Demo"
        (some "Calle 1") [⟨some "Limpieza dental", some 1, some 35000, some 35000⟩]).detalles.map
          (fun d => d.total.getD 0)).sum * 0.19)) ∧
     (validate_invoice_data (initialState "doc-1" 39 "20.210.808-K" "Paciente Demo"
        (some "Calle 1") [⟨some "Limpieza dental", some 1, some 35000, some 35000⟩])).monto_total
      = some (round2 (((initialState "doc-1" 39 "20.210.808-K" "Paciente Demo"
        (some "Calle 1") [⟨some "Limpieza dental", some 1, some 35000, some 35000⟩]).detalles.map
          (fun d => d.total.getD 0)).sum
        + round2 (((initialState "doc-1" 39 "20.210.808-K" "Paciente Demo"
        (some "Calle 1") [⟨some "Limpieza dental", some 1, some 35000, some 35000⟩]).detalles.map
          (fun d => d.total.getD 0)).sum * 0.19)))) :=
  ⟨by decide,
   C2_validator_totals _ (by decide) (by decide) (by decide)⟩

/-- C4: the validator aggregates all violations: a request whose
receptor RUT is shorter than nine characters and that contains a line
item with non-positive quantity fails with at least two error strings,
appended after any errors already in the state. -/
theorem C4_validator_aggregates (st : InvoiceWorkflowState)
    (hrut : st.receptor_rut.length < 9)
    (hbad : ∃ d ∈ st.detalles, d.cantidad.getD 0 ≤ 0) :
    2 ≤ (validateErrors st).length ∧
    (validate_invoice_data st).status = Status.failed ∧
    (validate_invoice_data st).errors = st.errors ++ validateErrors st := by
  have hlen : 2 ≤ (validateErrors st).length := by
    have hline := one_le_lineItemErrorsFrom_of_bad st.detalles hbad 0
    unfold validateErrors
    rw [if_pos (Or.inr hrut)]
    simp only [List.length_append, List.length_cons]
    omega
  have hne : validateErrors st ≠ [] := by
    intro h
    rw [h] at hlen
    simp at hlen
  refine ⟨hlen, ?_, ?_⟩ <;>
    · unfold validate_invoice_data
      rw [if_pos hne]

/-- C4 witness: a request with a seven-character RUT and a zero-quantity
line item produces at least two errors and a failed status. -/
theorem C4_validator_aggregates_witness :
    (("1234-56" : String).length < 9) ∧
    (2 ≤ (validateErrors (initialState "doc-1" 39 "1234-56" "Paciente Demo" none
        [⟨some "Control", some 0, some 10000, some 0⟩])).length ∧
     (validate_invoice_data (initialState "doc-1" 39 "1234-56" "Paciente Demo" none
        [⟨some "Control", some 0, some 10000, some 0⟩])).status = Status.failed ∧
     (validate_invoice_data (initialState "doc-1" 39 "1234-56" "Paciente Demo" none
        [⟨some "Control", some 0, some 10000, some 0⟩])).errors
       = (initialState "doc-1" 39 "1234-56" "Paciente Demo" none
        [⟨some "Control", some 0, some 10000, some 0⟩]).errors
         ++ validateErrors (initialState "doc-1" 39 "1234-56" "Paciente Demo" none
        [⟨some "Control", some 0, some 10000, some 0⟩])) :=
  ⟨by decide,
   C4_validator_aggregates _ (by decide) ⟨⟨some "Control", some 0, some 10000, some 0⟩, by decide⟩⟩

/-- C6: when the folio store yields no folio (error or exception), the
assign step does not fail: it stores the random fallback folio drawn
from `randint(100000, 999999)` and moves on to `validating`, so the
conditional edge continues the pipeline. -/
theorem C6_random_fallback_folio (env : Env) (st : InvoiceWorkflowState)
    (hdb : env.dbFolio = none)
    (hlo : 100000 ≤ env.randFolio) (hhi : env.randFolio ≤ 999999) :
    (assign_folio env st).folio = some env.randFolio ∧
    (∃ f, (assign_folio env st).folio = some f ∧ 100000 ≤ f ∧ f ≤ 999999) ∧
    (assign_folio env st).status = Status.validating ∧
    should_continue (assign_folio env st) = true := by
  unfold assign_folio should_continue
  rw [hdb]
  exact ⟨rfl, ⟨env.randFolio, rfl, hlo, hhi⟩, rfl, rfl⟩

/-- C6 witness: with the store unavailable and a concrete draw of
654321, the state records folio 654321 and proceeds to validation. -/
theorem C6_random_fallback_folio_witness :
    ((⟨none, 654321, none, "T", "d", "n", "r", "rs", "g", "di", "a"⟩ : Env).dbFolio = none) ∧
    ((assign_folio ⟨none, 654321, none, "T", "d", "n", "r", "rs", "g", "di", "a"⟩
        (initialState "doc-1" 39 "20.210.808-K" "P" none [])).folio = some 654321 ∧
     (∃ f, (assign_folio ⟨none, 654321, none, "T", "d", "n", "r", "rs", "g", "di", "a"⟩
        (initialState "doc-1" 39 "20.210.808-K" "P" none [])).folio = some f ∧
        100000 ≤ f ∧ f ≤ 999999) ∧
     (assign_folio ⟨none, 654321, none, "T", "d", "n", "r", "rs", "g", "di", "a"⟩
        (initialState "doc-1" 39 "20.210.808-K" "P" none [])).status = Status.validating ∧
     should_continue (assign_folio ⟨none, 654321, none, "T", "d", "n", "r", "rs", "g", "di", "a"⟩
        (initialState "doc-1" 39 "20.210.808-K" "P" none [])) = true) :=
  ⟨rfl, C6_random_fallback_folio _ _ rfl (by decide) (by decide)⟩

/-- C3: when `next = current + 1` exceeds the upper bound of an active
range, the allocator returns no folio and writes the `agotado` state
onto the row even though issuance failed; the exhaustion is permanent:
every one of the `n` following allocations for the key also returns no
folio. -/
theorem C3_range_exhaustion (r : FolioRange)
    (hact : r.estado = RangeEstado.activo)
    (hex : r.folio_hasta < r.folio_actual + 1) :
    (get_next_folio r).1 = none ∧
    (get_next_folio r).2.estado = RangeEstado.agotado ∧
    ∀ n, (allocateMany n (get_next_folio r).2).1 = List.replicate n none := by
  have hstep : get_next_folio r = (none, { r with estado := RangeEstado.agotado }) := by
    unfold get_next_folio
    rw [if_neg (by rw [hact]; decide), if_pos hex]
  refine ⟨by rw [hstep], by rw [hstep], ?_⟩
  intro n
  rw [hstep]
  rw [allocateMany_agotado n _ rfl]

/-- C3 witness: an active range sitting at its upper bound (current 10,
upper 10) yields no folio, flips to `agotado`, and the next three calls
all yield no folio. -/
theorem C3_range_exhaustion_witness :
    ((⟨10, 10, RangeEstado.activo⟩ : FolioRange).estado = RangeEstado.activo) ∧
    ((get_next_folio ⟨10, 10, RangeEstado.activo⟩).1 = none ∧
     (get_next_folio ⟨10, 10, RangeEstado.activo⟩).2.estado = RangeEstado.agotado ∧
     (allocateMany 3 (get_next_folio ⟨10, 10, RangeEstado.activo⟩).2).1
       = List.replicate 3 none) :=
  ⟨rfl,
   ⟨(C3_range_exhaustion _ rfl (by decide)).1,
    (C3_range_exhaustion _ rfl (by decide)).2.1,
    (C3_range_exhaustion _ rfl (by decide)).2.2 3⟩⟩

/-- C5: the workflow entry point always returns a structured result:
either the final status is `failed` and the caller receives exactly the
accumulated error list (the failure value carries no PDF-bytes field by
construction), or the caller receives the success record with
`estado_sii = "aceptado"`. -/
theorem C5_structured_result (env : Env) (did : String) (td : ℤ) (rut rs : String)
    (dir : Option String) (dl : List Detalle) :
    ((runInvoiceWorkflow env (initialState did td rut rs dir dl)).status = Status.failed ∧
     execute_invoice_generation env did td rut rs dir dl
       = InvoiceResult.fail ((runInvoiceWorkflow env (initialState did td rut rs dir dl)).errors)) ∨
    (∃ f t u m pb, execute_invoice_generation env did td rut rs dir dl
       = InvoiceResult.ok f t u m "aceptado" pb) := by
  unfold execute_invoice_generation
  by_cases h : (runInvoiceWorkflow env (initialState did td rut rs dir dl)).status = Status.failed
  · left
    exact ⟨h, by rw [if_pos h]⟩
  · right
    exact ⟨_, _, _, _, _, by rw [if_neg h]⟩

/-- Environment for the C1 run: the folio store yields folio 101 and the
ReportLab call raises. -/
def envC1 : Env :=
  { dbFolio := some 101
    randFolio := 123456
    pdfOutcome := none
    trackToken := "AB12CD34"
    today := "2025-01-15"
    nowStamp := "2025-01-15 12:00:00"
    empresaRut := "12345678-9"
    empresaRazonSocial := "Clinica Dental TheCareBot"
    empresaGiro := "Servicios Odontologicos"
    empresaDireccion := "Av. Providencia 1234, Santiago"
    empresaActividad := "869090" }

/-- Initial state for the C1 run: a fully valid boleta request. -/
def stC1 : InvoiceWorkflowState :=
  initialState "doc-1" 39 "20.210.808-K" "Paciente Demo" (some "Calle 1")
    [⟨some "Limpieza dental", some 1, some 35000, some 35000⟩]

/-- C1 divergence: on a valid request whose PDF step fails, the pipeline
does not terminate at the failure — the unconditional edges run
`send_to_sii`, which overwrites the status to `completed`, and the entry
point returns a success record whose track id and PDF bytes are both
`none`, while the PDF-step error string sits (twice, by the
`operator.add` reducer) in the accumulated error list. -/
theorem C1_pdf_failure_reaches_completed :
    (runInvoiceWorkflow envC1 stC1).status = Status.completed ∧
    (runInvoiceWorkflow envC1 stC1).errors
      = ["Error generating PDF: exception in generate_invoice_pdf",
         "Error generating PDF: exception in generate_invoice_pdf"] ∧
    execute_invoice_generation envC1 "doc-1" 39 "20.210.808-K" "Paciente Demo"
        (some "Calle 1") [⟨some "Limpieza dental", some 1, some 35000, some 35000⟩]
      = InvoiceResult.ok (some 101) none none (some 41650)
          "aceptado" none := by
  have h1 : applyNode (assign_folio envC1) stC1
      = { stC1 with folio := some 101, status := Status.validating } := rfl
  have herr : validateErrors { stC1 with folio := some 101, status := Status.validating }
      = [] := by decide
  have hval : validate_invoice_data { stC1 with folio := some 101, status := Status.validating }
      = { stC1 with
            folio := some 101
            monto_neto := some 35000
            monto_iva := some 6650
            monto_total := some 41650
            status := Status.generating_xml } := by
    rw [validate_invoice_data_of_no_errors _ herr]
    simp only [stC1, initialState]
    norm_num [round2, round_eq]
  have h2 : applyNode validate_invoice_data
        { stC1 with folio := some 101, status := Status.validating }
      = { stC1 with
            folio := some 101
            monto_neto := some 35000
            monto_iva := some 6650
            monto_total := some 41650
            status := Status.generating_xml } := by
    have hcong := congrArg
      (fun r : InvoiceWorkflowState =>
        { r with errors :=
            ({ stC1 with folio := some 101, status := Status.validating }).errors ++ r.errors })
      hval
    exact hcong
  have hc1 : should_continue (applyNode (assign_folio envC1) stC1) = true := rfl
  have hc2 : should_continue (applyNode validate_invoice_data
      (applyNode (assign_folio envC1) stC1)) = true := by
    rw [h1, h2]
    rfl
  have hrun : runInvoiceWorkflow envC1 stC1
      = applyNode send_to_sii (applyNode (generate_pdf_invoice envC1)
          (applyNode sign_xml_dte (applyNode (generate_xml_dte envC1)
            (applyNode validate_invoice_data (applyNode (assign_folio envC1) stC1))))) := by
    simp only [runInvoiceWorkflow, hc1, hc2, if_true]
  refine ⟨?_, ?_, ?_⟩
  · rw [hrun, h1, h2]
    rfl
  · rw [hrun, h1, h2]
    rfl
  · show execute_invoice_generation envC1 "doc-1" 39 "20.210.808-K" "Paciente Demo"
        (some "Calle 1") [⟨some "Limpieza dental", some 1, some 35000, some 35000⟩] = _
    unfold execute_invoice_generation
    rw [show initialState "doc-1" 39 "20.210.808-K" "Paciente Demo"
        (some "Calle 1") [⟨some "Limpieza dental", some 1, some 35000, some 35000⟩] = stC1 from rfl]
    rw [hrun, h1, h2]
    rfl

/-- C7: for a pattern drawn from the scored list, the confidence equals
`round(0.4 * freq/maxFreq + 0.3 * contextMatchRatio + 0.3 * similarity, 2)`
with similarity `1` on empty current input; and a pattern of maximal
frequency (a positive count, per the pattern lifecycle) with exact
context match on comparable keys and exact string match scores `1.0`. -/
theorem C7_confidence_formula (patterns : List AutofillPattern) (p : AutofillPattern)
    (v : String) (ctx : AutofillContext) (hp : p ∈ patterns) :
    calculate_confidence_score p v ctx (maxFrequency patterns)
      = round2 (0.4 * ((p.frecuencia : ℚ) / ((maxFrequency patterns : ℕ) : ℚ))
          + 0.3 * calculate_context_match_score p.contexto ctx
          + 0.3 * (if pyStripIsEmpty v then (1 : ℚ) else calculate_string_similarity v p.valor)) ∧
    (p.frecuencia = maxFrequency patterns → 1 ≤ p.frecuencia →
      calculate_context_match_score p.contexto ctx = 1 → v = p.valor →
      calculate_confidence_score p v ctx (maxFrequency patterns) = 1) := by
  have hfle : p.frecuencia ≤ maxFrequency patterns := frecuencia_le_maxFrequency _ _ hp
  have hfreq : min ((p.frecuencia : ℚ) / ((max (maxFrequency patterns) 1 : ℕ) : ℚ)) 1
      = (p.frecuencia : ℚ) / ((maxFrequency patterns : ℕ) : ℚ) := by
    rcases Nat.eq_zero_or_pos (maxFrequency patterns) with h0 | hpos
    · have hzero : p.frecuencia = 0 := by omega
      rw [h0, hzero]
      norm_num
    · have hmax : max (maxFrequency patterns) 1 = maxFrequency patterns :=
        Nat.max_eq_left hpos
      rw [hmax]
      have hle1 : (p.frecuencia : ℚ) / ((maxFrequency patterns : ℕ) : ℚ) ≤ 1 := by
        rw [div_le_one (by exact_mod_cast hpos)]
        exact_mod_cast hfle
      exact min_eq_left hle1
  constructor
  · simp only [calculate_confidence_score, rawConfidence]
    rw [hfreq]
  · intro hfeq hfpos hctx hveq
    subst hveq
    have hpos : 0 < maxFrequency patterns := by omega
    have hne : ((maxFrequency patterns : ℕ) : ℚ) ≠ 0 := by
      exact_mod_cast hpos.ne'
    have hsim : (if pyStripIsEmpty p.valor then (1 : ℚ)
        else calculate_string_similarity p.valor p.valor) = 1 := by
      split
      · rfl
      · exact calculate_string_similarity_self p.valor
    simp only [calculate_confidence_score, rawConfidence, hctx, hsim, hfeq,
      Nat.max_eq_left hpos, div_self hne]
    norm_num [round2, round_eq]

/-- Context used by the C7 witness. -/
def ctxC7 : AutofillContext := ⟨some "lunes", some "control", some "manana"⟩

/-- Maximal-frequency pattern used by the C7 witness. -/
def patC7 : AutofillPattern := ⟨"Bono Fonasa", 5, ctxC7, "2025-01-01"⟩

/-- Pattern list used by the C7 witness. -/
def patsC7 : List AutofillPattern :=
  [⟨"Consulta", 2, AutofillContext.empty, ""⟩, patC7]

/-- C7 witness: the pattern of maximal frequency 5, with all three
context keys matching and the input equal to its value, scores exactly
1. -/
theorem C7_confidence_formula_witness :
    patC7 ∈ patsC7 ∧
    patC7.frecuencia = maxFrequency patsC7 ∧
    1 ≤ patC7.frecuencia ∧
    calculate_context_match_score patC7.contexto ctxC7 = 1 ∧
    calculate_confidence_score patC7 "Bono Fonasa" ctxC7 (maxFrequency patsC7) = 1 :=
  ⟨by decide, by decide, by decide,
   by
     unfold calculate_context_match_score
     rw [if_neg (by decide)]
     norm_num [patC7, ctxC7, keyCount],
   (C7_confidence_formula patsC7 patC7 "Bono Fonasa" ctxC7 (by decide)).2
     (by decide) (by decide)
     (by
       unfold calculate_context_match_score
       rw [if_neg (by decide)]
       norm_num [patC7, ctxC7, keyCount])
     rfl⟩

lemma sorted_take_mergeSort_desc {α : Type} (f : α → ℚ) (l : List α) (n : ℕ) :
    List.Sorted (fun a b => f b ≤ f a)
      ((l.mergeSort (fun x y => decide (f y ≤ f x))).take n) := by
  have hs : List.Pairwise (fun a b => (fun x y => decide (f y ≤ f x)) a b = true)
      (l.mergeSort (fun x y => decide (f y ≤ f x))) := by
    refine List.sorted_mergeSort ?_ ?_ l
    · intro a b c h1 h2
      simp only [decide_eq_true_eq] at h1 h2 ⊢
      exact le_trans h2 h1
    · intro a b
      simp only [Bool.or_eq_true, decide_eq_true_eq]
      exact le_total _ _
  have hp : List.Pairwise (fun a b => f b ≤ f a)
      (l.mergeSort (fun x y => decide (f y ≤ f x))) := by
    refine hs.imp ?_
    intro a b h
    simpa using h
  exact hp.sublist (List.take_sublist _ _)

lemma mem_scoreAllSimple_confidence (patterns : List AutofillPattern) (v : String)
    (ctx : AutofillContext) (q : Prediction)
    (hq : q ∈ scoreAllSimple patterns v ctx) : (0.6 : ℚ) ≤ q.confidence := by
  unfold scoreAllSimple at hq
  rcases List.mem_filterMap.mp hq with ⟨p, _, hf⟩
  by_cases hc : (0.6 : ℚ) ≤ calculate_confidence_score p v ctx (maxFrequency patterns)
  · rw [if_pos hc] at hf
    cases hf
    exact hc
  · rw [if_neg hc] at hf
    cases hf

lemma mem_scoreAllTool_confidence (patterns : List AutofillPattern) (v : String)
    (ctx : AutofillContext) (q : ScoredPrediction)
    (hq : q ∈ scoreAllTool patterns v ctx) : (0.6 : ℚ) ≤ q.confidence := by
  unfold scoreAllTool at hq
  rcases List.mem_filterMap.mp hq with ⟨p, _, hf⟩
  by_cases hc : (0.6 : ℚ) ≤ calculate_confidence_score p v ctx (maxFrequency patterns)
  · rw [if_pos hc] at hf
    cases hf
    exact hc
  · rw [if_neg hc] at hf
    cases hf

/-- C8: every prediction list returned by either entry point contains
only candidates of confidence at least 0.6, has at most five entries,
and is sorted in non-increasing order of confidence. -/
theorem C8_output_contract (patterns : List AutofillPattern) (v : String)
    (ctx : AutofillContext) :
    ((∀ q ∈ predict_autofill_simple patterns v ctx, (0.6 : ℚ) ≤ q.confidence) ∧
     (predict_autofill_simple patterns v ctx).length ≤ 5 ∧
     List.Sorted (fun a b => b.confidence ≤ a.confidence)
       (predict_autofill_simple patterns v ctx)) ∧
    ((∀ q ∈ query_and_score_patterns patterns v ctx, (0.6 : ℚ) ≤ q.confidence) ∧
     (query_and_score_patterns patterns v ctx).length ≤ 5 ∧
     List.Sorted (fun a b => b.confidence ≤ a.confidence)
       (query_and_score_patterns patterns v ctx)) := by
  by_cases hemp : patterns = []
  · subst hemp
    refine ⟨⟨?_, ?_, ?_⟩, ⟨?_, ?_, ?_⟩⟩ <;> simp [predict_autofill_simple, query_and_score_patterns]
  · constructor
    · unfold predict_autofill_simple
      rw [if_neg hemp]
      refine ⟨?_, ?_, ?_⟩
      · intro q hq
        have hmem : q ∈ (scoreAllSimple patterns v ctx).mergeSort predDesc :=
          List.take_subset _ _ hq
        exact mem_scoreAllSimple_confidence patterns v ctx q (List.mem_mergeSort.mp hmem)
      · rw [List.length_take]
        exact min_le_left _ _
      · exact sorted_take_mergeSort_desc Prediction.confidence _ 5
    · unfold query_and_score_patterns
      rw [if_neg hemp]
      refine ⟨?_, ?_, ?_⟩
      · intro q hq
        have hmem : q ∈ (scoreAllTool patterns v ctx).mergeSort scoredDesc :=
          List.take_subset _ _ hq
        exact mem_scoreAllTool_confidence patterns v ctx q (List.mem_mergeSort.mp hmem)
      · rw [List.length_take]
        exact min_le_left _ _
      · exact sorted_take_mergeSort_desc ScoredPrediction.confidence _ 5

/-- High-frequency pattern of the C9 scenario. -/
def patC9a : AutofillPattern := ⟨"Consulta", 200, AutofillContext.empty, ""⟩

/-- Borderline pattern of the C9 scenario: raw weighted sum 0.596. -/
def patC9b : AutofillPattern := ⟨"Limpieza", 73, AutofillContext.empty, ""⟩

/-- C9: the 0.6 threshold tests the rounded confidence: pattern
`patC9b` has raw weighted sum 0.596 < 0.6, its stored confidence is the
rounded 0.60, and both entry points therefore include it in their
output. -/
theorem C9_threshold_on_rounded_score :
    rawConfidence patC9b "" AutofillContext.empty (maxFrequency [patC9a, patC9b]) < 0.6 ∧
    calculate_confidence_score patC9b "" AutofillContext.empty
      (maxFrequency [patC9a, patC9b]) = 0.6 ∧
    (predict_autofill_simple [patC9a, patC9b] "" AutofillContext.empty).map
      (fun q => (q.valor, q.confidence)) = [("Consulta", 0.85), ("Limpieza", 0.6)] ∧
    (query_and_score_patterns [patC9a, patC9b] "" AutofillContext.empty).map
      (fun q => (q.valor, q.confidence)) = [("Consulta", 0.85), ("Limpieza", 0.6)] := by
  have hmax : maxFrequency [patC9a, patC9b] = 200 := by decide
  have htrm : pyStripIsEmpty "" = true := rfl
  have hctxE : calculate_context_match_score AutofillContext.empty AutofillContext.empty
      = 1/2 := by
    unfold calculate_context_match_score
    rw [if_pos (Or.inl rfl)]
  have hca : patC9a.contexto = AutofillContext.empty := rfl
  have hcb : patC9b.contexto = AutofillContext.empty := rfl
  have hrawA : rawConfidence patC9a "" AutofillContext.empty 200 = 0.85 := by
    simp only [rawConfidence, hca, hctxE, if_pos htrm]
    norm_num [patC9a]
  have hrawB : rawConfidence patC9b "" AutofillContext.empty 200 = 0.596 := by
    simp only [rawConfidence, hcb, hctxE, if_pos htrm]
    norm_num [patC9b]
  have hA : calculate_confidence_score patC9a "" AutofillContext.empty 200 = 0.85 := by
    unfold calculate_confidence_score
    rw [hrawA]
    norm_num [round2, round_eq]
  have hB : calculate_confidence_score patC9b "" AutofillContext.empty 200 = 0.6 := by
    unfold calculate_confidence_score
    rw [hrawB]
    norm_num [round2, round_eq]
  have hfa : (if (0.6 : ℚ) ≤ calculate_confidence_score patC9a "" AutofillContext.empty 200
      then some (mkPrediction patC9a "" AutofillContext.empty 200) else none)
      = some (mkPrediction patC9a "" AutofillContext.empty 200) := by
    rw [hA]
    norm_num
  have hfb : (if (0.6 : ℚ) ≤ calculate_confidence_score patC9b "" AutofillContext.empty 200
      then some (mkPrediction patC9b "" AutofillContext.empty 200) else none)
      = some (mkPrediction patC9b "" AutofillContext.empty 200) := by
    rw [hB]
    norm_num
  have hga : (if (0.6 : ℚ) ≤ calculate_confidence_score patC9a "" AutofillContext.empty 200
      then some (mkScoredPrediction patC9a "" AutofillContext.empty 200) else none)
      = some (mkScoredPrediction patC9a "" AutofillContext.empty 200) := by
    rw [hA]
    norm_num
  have hgb : (if (0.6 : ℚ) ≤ calculate_confidence_score patC9b "" AutofillContext.empty 200
      then some (mkScoredPrediction patC9b "" AutofillContext.empty 200) else none)
      = some (mkScoredPrediction patC9b "" AutofillContext.empty 200) := by
    rw [hB]
    norm_num
  have hscore : scoreAllSimple [patC9a, patC9b] "" AutofillContext.empty
      = [mkPrediction patC9a "" AutofillContext.empty 200,
         mkPrediction patC9b "" AutofillContext.empty 200] := by
    simp only [scoreAllSimple, hmax, List.filterMap_cons, List.filterMap_nil]
    rw [hfa, hfb]
  have hscore' : scoreAllTool [patC9a, patC9b] "" AutofillContext.empty
      = [mkScoredPrediction patC9a "" AutofillContext.empty 200,
         mkScoredPrediction patC9b "" AutofillContext.empty 200] := by
    simp only [scoreAllTool, hmax, List.filterMap_cons, List.filterMap_nil]
    rw [hga, hgb]
  have hconfA : (mkPrediction patC9a "" AutofillContext.empty 200).confidence = 0.85 := by
    simp only [mkPrediction]
    exact hA
  have hconfB : (mkPrediction patC9b "" AutofillContext.empty 200).confidence = 0.6 := by
    simp only [mkPrediction]
    exact hB
  have hconfA' : (mkScoredPrediction patC9a "" AutofillContext.empty 200).confidence = 0.85 := by
    simp only [mkScoredPrediction]
    exact hA
  have hconfB' : (mkScoredPrediction patC9b "" AutofillContext.empty 200).confidence = 0.6 := by
    simp only [mkScoredPrediction]
    exact hB
  have hsorted : List.Pairwise (fun a b => predDesc a b = true)
      [mkPrediction patC9a "" AutofillContext.empty 200,
       mkPrediction patC9b "" AutofillContext.empty 200] := by
    refine List.pairwise_cons.mpr ⟨?_, List.pairwise_singleton _ _⟩
    intro b hb
    rcases List.mem_singleton.mp hb with rfl
    unfold predDesc
    simp only [decide_eq_true_eq, hconfA, hconfB]
    norm_num
  have hsorted' : List.Pairwise (fun a b => scoredDesc a b = true)
      [mkScoredPrediction patC9a "" AutofillContext.empty 200,
       mkScoredPrediction patC9b "" AutofillContext.empty 200] := by
    refine List.pairwise_cons.mpr ⟨?_, List.pairwise_singleton _ _⟩
    intro b hb
    rcases List.mem_singleton.mp hb with rfl
    unfold scoredDesc
    simp only [decide_eq_true_eq, hconfA', hconfB']
    norm_num
  have hpred : predict_autofill_simple [patC9a, patC9b] "" AutofillContext.empty
      = [mkPrediction patC9a "" AutofillContext.empty 200,
         mkPrediction patC9b "" AutofillContext.empty 200] := by
    unfold predict_autofill_simple
    rw [if_neg (by simp), hscore, List.mergeSort_of_sorted hsorted]
    rfl
  have hpred' : query_and_score_patterns [patC9a, patC9b] "" AutofillContext.empty
      = [mkScoredPrediction patC9a "" AutofillContext.empty 200,
         mkScoredPrediction patC9b "" AutofillContext.empty 200] := by
    unfold query_and_score_patterns
    rw [if_neg (by simp), hscore', List.mergeSort_of_sorted hsorted']
    rfl
  refine ⟨?_, ?_, ?_, ?_⟩
  · rw [hmax, hrawB]
    norm_num
  · rw [hmax]
    exact hB
  · rw [hpred]
    simp only [List.map_cons, List.map_nil, hconfA, hconfB]
    rfl
  · rw [hpred']
    simp only [List.map_cons, List.map_nil, hconfA', hconfB']
    rfl

/-- C10: both prediction entry points are total on an empty pattern
list: they return the empty list at once, before the maximum-frequency
computation is ever reached. -/
theorem C10_empty_patterns_safe (v : String) (ctx : AutofillContext) :
    predict_autofill_simple [] v ctx = [] ∧ query_and_score_patterns [] v ctx = [] := by
  constructor <;> rfl

end TheCareBot
